import Mathlib

/-!
Shallow embedding of the Authentication & Session Lifecycle core of the
repository (class `AuthService` in `src/backend/src/config/database.ts`,
together with the `users` / `user_sessions` tables from
`src/backend/src/models/schema.ts` and the JWT/bcrypt configuration from
the config module in the same file).

Modelling conventions (stated once, used throughout):

* External cryptographic libraries are embedded at the symbolic
  (Dolev-Yao) level: `jwt.sign(payload, secret)` is the pair
  `⟨payload, secret⟩` (unforgeable, deterministic HS256 signing:
  injective encoding), and `jwt.verify(token, secret)` checks key
  equality and then the embedded expiry, exactly as `jsonwebtoken`
  does by default.  The source calls `jwt.verify` without an options
  object, so issuer/audience are NOT validated — the model reflects
  that.
* `bcrypt.hash(x, cost)` generates a fresh random salt on every call
  (bcryptjs `genSalt`); the model draws that salt from a `nextSalt`
  counter in the world state and the digest `⟨cost, salt, x⟩` embeds
  it, as a real `$2b$cost$salt…` digest does.  `bcrypt.compare(x, d)`
  re-derives the salt from the digest and so is deterministic given
  `d`: it checks that `d` certifies `x`.  Consequently a digest
  recomputed by a later `hash` call never equals a stored digest —
  which is exactly why the recomputed-hash equality lookups in
  `refreshToken` and `verifyToken` can never match.
* The drizzle query `…  .where(cond).limit(1)` followed by a length /
  destructuring check is modelled by `List.find?` with the predicate
  the `where` clause denotes; `eq(users.deletedAt, null)` in `login`
  emits the SQL comparison `deleted_at = NULL`, which no row satisfies
  (`sqlEqNull` below is constantly false), so the login lookup matches
  no account.
* Timestamps are `Nat` seconds (the source mixes second-resolution JWT
  timestamps with millisecond `Date`s; all comparisons are order
  preserving under this change of unit).
* Database-generated UUIDs are modelled by a fresh-id counter in the
  world state.
* Stateful code is explicit state passing: an operation maps a `World`
  to a result (`Except AppError α`, mirroring the thrown `AppError`s)
  paired with the successor `World`.  Writes performed before a throw
  persist, mirroring the absence of transactions in the source.
-/

namespace Auth

/-- `AppError` from `src/unnamed/part_001` as thrown by `AuthService`:
message, HTTP status code and optional details (the only details object
ever passed is `{ mfaRequired: true }`).  The constant
`isOperational = true` field is omitted. -/
structure ErrorDetails where
  mfaRequired : Bool
deriving DecidableEq, Repr

structure AppError where
  message : String
  statusCode : Nat
  details : Option ErrorDetails
deriving DecidableEq, Repr

/-- Symbolic bcrypt digest: cost factor, the random salt generated by
that `hash` call, and the certified value (the digest embeds its salt,
as a real bcrypt digest string does).  Two digests of the same value
under different salts are distinct. -/
structure Digest (α : Type) where
  cost : Nat
  salt : Nat
  value : α
deriving DecidableEq, Repr

/-- Raw digest construction for a given salt. -/
def bcryptHash (cost salt : Nat) (value : α) : Digest α := ⟨cost, salt, value⟩

/-- `bcrypt.compare(plain, digest)`: re-derives the salt from the
digest, so it is deterministic given the digest — true iff the digest
certifies the plaintext. -/
def bcryptCompare [BEq α] (plain : α) (digest : Digest α) : Bool :=
  plain == digest.value

/-- Decoded JWT payload (`JWTPayload` in the source).  The refresh-token
payload omits `email`/`username`, hence the `Option` fields. -/
structure Claims where
  sub : String
  email : Option String
  username : Option String
  iat : Nat
  exp : Nat
  iss : String
  aud : String
deriving DecidableEq, Repr

/-- Symbolic signed JWT: the claims together with the signing key. -/
structure SignedToken where
  claims : Claims
  key : String
deriving DecidableEq, Repr

inductive JwtError
  | invalidSignature
  | tokenExpired
deriving DecidableEq, Repr

/-- `jwt.sign(payload, secret)`. -/
def jwtSign (claims : Claims) (key : String) : SignedToken := ⟨claims, key⟩

/-- `jwt.verify(token, secret)` with no options: signature check, then
default expiry check (`jsonwebtoken` rejects when `now ≥ exp`). -/
def jwtVerify (token : SignedToken) (key : String) (now : Nat) :
    Except JwtError Claims :=
  if token.key ≠ key then .error .invalidSignature
  else if token.claims.exp ≤ now then .error .tokenExpired
  else .ok token.claims

/-- Row of the `users` table restricted to the columns `AuthService`
reads or writes (id, username, email, password_hash, display_name,
verified, mfa_enabled, deleted_at); the remaining profile columns are
never consulted by the auth code. -/
structure User where
  id : String
  username : String
  email : String
  passwordHash : Digest String
  displayName : String
  verified : Bool
  mfaEnabled : Bool
  deletedAt : Option Nat
deriving DecidableEq, Repr

/-- Row of the `user_sessions` table. -/
structure SessionRecord where
  id : String
  userId : String
  tokenHash : Digest SignedToken
  refreshTokenHash : Option (Digest SignedToken)
  deviceInfo : Option String
  ipAddress : Option String
  userAgent : Option String
  expiresAt : Nat
  createdAt : Nat
  lastUsedAt : Nat
deriving DecidableEq, Repr

structure DB where
  users : List User
  userSessions : List SessionRecord
deriving DecidableEq, Repr

/-- World state threaded through the operations: the database, the
current time in seconds, a fresh-id counter standing for the database's
UUID generator, and a fresh-salt counter standing for bcrypt's salt
generator (every `bcrypt.hash` call consumes a salt never used
before). -/
structure World where
  db : DB
  now : Nat
  nextId : Nat
  nextSalt : Nat
deriving DecidableEq, Repr

def freshId (w : World) : String := "id-" ++ toString w.nextId

/-- `bcrypt.hash(value, cost)`: salts the digest with a fresh salt and
advances the salt source. -/
def bcryptHashW (cost : Nat) (value : α) (w : World) : Digest α × World :=
  (bcryptHash cost w.nextSalt value, { w with nextSalt := w.nextSalt + 1 })

/-- `config.auth.jwt` plus the bcrypt work factor, as read from the
validated environment in the config module. -/
structure AuthConfig where
  secret : String
  refreshSecret : String
  accessExpiresIn : String
  refreshExpiresIn : String
  issuer : String
  audience : String
  bcryptRounds : Nat
deriving DecidableEq, Repr

/-- Input records of the service. -/
structure LoginCredentials where
  email : String
  password : String
  mfaCode : Option String
deriving DecidableEq, Repr

structure RegisterData where
  username : String
  email : String
  password : String
  displayName : Option String
  inviteCode : Option String
deriving DecidableEq, Repr

structure TokenPair where
  accessToken : SignedToken
  refreshToken : SignedToken
  expiresIn : Nat
deriving DecidableEq, Repr

structure SessionInfo where
  deviceInfo : Option String
  ipAddress : Option String
  userAgent : Option String
deriving DecidableEq, Repr

/-- `user` object returned by register/login after
`const { passwordHash: _, ...userWithoutPassword } = user`. -/
structure PublicUser where
  id : String
  username : String
  email : String
  displayName : String
  verified : Bool
  mfaEnabled : Bool
  deletedAt : Option Nat
deriving DecidableEq, Repr

def stripPassword (u : User) : PublicUser :=
  ⟨u.id, u.username, u.email, u.displayName, u.verified, u.mfaEnabled, u.deletedAt⟩

structure AuthResult where
  user : PublicUser
  tokens : TokenPair
deriving DecidableEq, Repr

/-- Outcome of an operation: the thrown/returned value and the successor
world. -/
abbrev AuthM (α : Type) := Except AppError α × World

/-- Value of JavaScript `parseInt` on the strings this service feeds it
(a digit prefix; the `NaN` case for digit-free input is outside the
modelled range and mapped to 0). -/
def leadingDigits (s : String) : List Char := s.toList.takeWhile (·.isDigit)

def jsParseIntNat (s : String) : Nat :=
  (leadingDigits s).foldl (fun a c => a * 10 + (c.toNat - 48)) 0

/-- `AuthService.parseTimeToSeconds`. -/
def parseTimeToSeconds (timeString : String) : Nat :=
  let unit := timeString.takeRight 1
  let value := jsParseIntNat (timeString.dropRight 1)
  if unit = "s" then value
  else if unit = "m" then value * 60
  else if unit = "h" then value * 60 * 60
  else if unit = "d" then value * 60 * 60 * 24
  else value

/-- JavaScript truthiness of an optional string (`undefined` and `""`
are falsy), used for `data.displayName || data.username` and
`!credentials.mfaCode`. -/
def jsTruthy : Option String → Bool
  | none => false
  | some s => !(s == "")

def jsOr (o : Option String) (dflt : String) : String :=
  match o with
  | none => dflt
  | some s => if s = "" then dflt else s

/-- `AuthService.verifyMfaCode` — the source's placeholder
implementation (`return code === '123456'`). -/
def verifyMfaCode (_userId : String) (code : String) : Bool :=
  code == "123456"

/-- The SQL comparison `deleted_at = NULL` that drizzle's
`eq(users.deletedAt, null)` emits (a bound NULL parameter, not
`IS NULL`): a `=` comparison against NULL is satisfied by no row,
whatever the column holds. -/
def sqlEqNull (_deletedAt : Option Nat) : Bool := false

/-- Predicate of the `where` clause of `login`'s user lookup:
`and(eq(users.email, email), eq(users.deletedAt, null))`.  Because of
`sqlEqNull` it is false for every row, so the lookup finds no user. -/
def loginUserPred (email : String) (u : User) : Bool :=
  u.email == email && sqlEqNull u.deletedAt

/-- Predicate of the session lookup in `refreshToken`:
`and(eq(userSessions.userId, sub), eq(userSessions.refreshTokenHash, h))`. -/
def refreshSessionPred (sub : String) (h : Digest SignedToken)
    (s : SessionRecord) : Bool :=
  s.userId == sub && s.refreshTokenHash == some h

/-- Predicate of the session lookup in `verifyToken`:
`and(eq(userSessions.userId, sub), eq(userSessions.tokenHash, h))`. -/
def verifySessionPred (sub : String) (h : Digest SignedToken)
    (s : SessionRecord) : Bool :=
  s.userId == sub && s.tokenHash == h

/-- `AuthService.generateTokens`: build the access and refresh payloads,
sign each with its own secret, insert a new session row whose hashes are
the bcrypt digests of the two tokens and whose absolute expiry is bound
to the refresh-token lifetime, and return the pair.  It never throws. -/
def generateTokens (cfg : AuthConfig) (user : User)
    (sessionInfo : Option SessionInfo) (w : World) : TokenPair × World :=
  let now := w.now
  let accessExpiresIn := parseTimeToSeconds cfg.accessExpiresIn
  let refreshExpiresIn := parseTimeToSeconds cfg.refreshExpiresIn
  let accessClaims : Claims :=
    ⟨user.id, some user.email, some user.username, now, now + accessExpiresIn,
      cfg.issuer, cfg.audience⟩
  let refreshClaims : Claims :=
    ⟨user.id, none, none, now, now + refreshExpiresIn, cfg.issuer, cfg.audience⟩
  let accessToken := jwtSign accessClaims cfg.secret
  let refreshToken := jwtSign refreshClaims cfg.refreshSecret
  let th := bcryptHashW 10 accessToken w
  let rh := bcryptHashW 10 refreshToken th.2
  let sess : SessionRecord :=
    { id := freshId rh.2
      userId := user.id
      tokenHash := th.1
      refreshTokenHash := some rh.1
      deviceInfo := sessionInfo.bind (·.deviceInfo)
      ipAddress := sessionInfo.bind (·.ipAddress)
      userAgent := sessionInfo.bind (·.userAgent)
      expiresAt := now + refreshExpiresIn
      createdAt := now
      lastUsedAt := now }
  (⟨accessToken, refreshToken, accessExpiresIn⟩,
    { rh.2 with db.userSessions := rh.2.db.userSessions ++ [sess],
                nextId := rh.2.nextId + 1 })

/-- The Account row inserted by `register`: `verified` is set to
`false` explicitly, `mfa_enabled` and `deleted_at` take their column
defaults, the display name falls back to the username via JavaScript
`||`, and the password digest is salted with the salt fresh at hashing
time. -/
def regNewUser (cfg : AuthConfig) (data : RegisterData) (w : World) : User :=
  { id := freshId w
    username := data.username
    email := data.email
    passwordHash := bcryptHash cfg.bcryptRounds w.nextSalt data.password
    displayName := jsOr data.displayName data.username
    verified := false
    mfaEnabled := false
    deletedAt := none }

/-- `AuthService.register`.  The duplicate-email and duplicate-username
lookups carry no `deletedAt` filter in the source, so soft-deleted rows
are matched too. -/
def register (cfg : AuthConfig) (data : RegisterData) (w : World) :
    AuthM AuthResult :=
  if (w.db.users.find? (fun u => u.email == data.email)).isSome then
    (.error ⟨"User already exists with this email", 409, none⟩, w)
  else if (w.db.users.find? (fun u => u.username == data.username)).isSome then
    (.error ⟨"Username is already taken", 409, none⟩, w)
  else
    let newUser := regNewUser cfg data w
    let w₁ : World :=
      { w with db.users := w.db.users ++ [newUser], nextId := w.nextId + 1,
               nextSalt := w.nextSalt + 1 }
    let gt := generateTokens cfg newUser none w₁
    (.ok ⟨stripPassword newUser, gt.1⟩, gt.2)

/-- `AuthService.login`. -/
def login (cfg : AuthConfig) (credentials : LoginCredentials)
    (sessionInfo : Option SessionInfo) (w : World) : AuthM AuthResult :=
  match w.db.users.find? (loginUserPred credentials.email) with
  | none => (.error ⟨"Invalid credentials", 401, none⟩, w)
  | some user =>
    if !(bcryptCompare credentials.password user.passwordHash) then
      (.error ⟨"Invalid credentials", 401, none⟩, w)
    else if user.mfaEnabled && !(jsTruthy credentials.mfaCode) then
      (.error ⟨"MFA code required", 401, some ⟨true⟩⟩, w)
    else if user.mfaEnabled && jsTruthy credentials.mfaCode
        && !(verifyMfaCode user.id (credentials.mfaCode.getD "")) then
      (.error ⟨"Invalid MFA code", 401, none⟩, w)
    else
      let gt := generateTokens cfg user sessionInfo w
      (.ok ⟨stripPassword user, gt.1⟩, gt.2)

/-- Body of the `try` block of `AuthService.refreshToken`; the `User not
found` (404) error it can raise is swallowed by the surrounding `catch`,
see `refreshTokenOp`. -/
def refreshTokenAux (cfg : AuthConfig) (token : SignedToken) (w : World) :
    AuthM TokenPair :=
  match jwtVerify token cfg.refreshSecret w.now with
  | .error _ => (.error ⟨"Invalid refresh token", 401, none⟩, w)
  | .ok payload =>
    let hw := bcryptHashW 10 token w
    match hw.2.db.userSessions.find? (refreshSessionPred payload.sub hw.1) with
    | none => (.error ⟨"Invalid refresh token", 401, none⟩, hw.2)
    | some session =>
      if session.expiresAt < hw.2.now then
        (.error ⟨"Invalid refresh token", 401, none⟩, hw.2)
      else
        match hw.2.db.users.find? (fun u => u.id == payload.sub) with
        | none => (.error ⟨"User not found", 404, none⟩, hw.2)
        | some user =>
          let gt := generateTokens cfg user none hw.2
          let nth := bcryptHashW 10 gt.1.accessToken gt.2
          let nrh := bcryptHashW 10 gt.1.refreshToken nth.2
          let w₂ : World :=
            { nrh.2 with db.userSessions := nrh.2.db.userSessions.map (fun s =>
                if s.id == session.id then
                  { s with tokenHash := nth.1
                           refreshTokenHash := some nrh.1
                           lastUsedAt := nrh.2.now }
                else s) }
          (.ok gt.1, w₂)

/-- `AuthService.refreshToken`: the catch clause rethrows every failure
(including the jwt errors and the inner 404) as the uniform
`AppError('Invalid refresh token', 401)`. -/
def refreshTokenOp (cfg : AuthConfig) (token : SignedToken) (w : World) :
    AuthM TokenPair :=
  match refreshTokenAux cfg token w with
  | (.ok t, w') => (.ok t, w')
  | (.error _, w') => (.error ⟨"Invalid refresh token", 401, none⟩, w')

/-- `AuthService.logout`: delete every session row matching the given
user id and access-token hash; idempotent and never throws. -/
def logout (userId : String) (tokenHash : Digest SignedToken) (w : World) :
    AuthM Unit :=
  (.ok (),
    { w with db.userSessions := w.db.userSessions.filter (fun s =>
        !(verifySessionPred userId tokenHash s)) })

/-- `AuthService.verifyToken`: decode under the access secret (any
`JsonWebTokenError`, i.e. wrong signature or embedded expiry, becomes
`Invalid token`), then require a session row keyed by the recomputed —
freshly salted — access-token hash (`Token expired or invalid` when it
is absent or past its absolute expiry), and return the claims.  The
recomputed digest carries a salt no stored digest has, so the lookup
can never match any previously stored row. -/
def verifyToken (cfg : AuthConfig) (token : SignedToken) (w : World) :
    AuthM Claims :=
  match jwtVerify token cfg.secret w.now with
  | .error _ => (.error ⟨"Invalid token", 401, none⟩, w)
  | .ok payload =>
    let hw := bcryptHashW 10 token w
    match hw.2.db.userSessions.find? (verifySessionPred payload.sub hw.1) with
    | none => (.error ⟨"Token expired or invalid", 401, none⟩, hw.2)
    | some session =>
      if session.expiresAt < hw.2.now then
        (.error ⟨"Token expired or invalid", 401, none⟩, hw.2)
      else
        (.ok payload, hw.2)

/-- Boolean success test on a result, used to state scenario facts. -/
def okB : Except AppError α → Bool
  | .ok _ => true
  | .error _ => false

/-- Error projection of a result, used to state scenario facts. -/
def errOf : Except AppError α → Option AppError
  | .ok _ => none
  | .error e => some e

/-!  Concrete fixtures used by scenario theorems and witnesses. -/

/-- A well-formed configuration (distinct 32+-char secrets, the default
TTLs, issuer and audience of the environment schema). -/
def cfg₀ : AuthConfig :=
  ⟨"access-secret-0123456789-0123456789", "refresh-secret-0123456789-012345",
    "15m", "7d", "enrichment", "enrichment-users", 12⟩

def w₀ : World := ⟨⟨[], []⟩, 1000000, 0, 0⟩

def aliceData : RegisterData :=
  ⟨"alice", "alice@x.com", "pw123456789012345678901234567890", none, none⟩

def regStep : AuthM AuthResult := register cfg₀ aliceData w₀

def dummyToken : SignedToken := ⟨⟨"", none, none, 0, 0, "", ""⟩, ""⟩

def aliceTokens : TokenPair :=
  match regStep.1 with
  | .ok r => r.tokens
  | .error _ => ⟨dummyToken, dummyToken, 0⟩

/-- World one second after Alice's registration. -/
def wA : World := { regStep.2 with now := regStep.2.now + 1 }

def refreshStep : AuthM TokenPair := refreshTokenOp cfg₀ aliceTokens.refreshToken wA

/-- World one second after the first (successful) refresh. -/
def wB : World := { refreshStep.2 with now := refreshStep.2.now + 1 }

/-- Replay of the already-rotated refresh token. -/
def reuseStep : AuthM TokenPair := refreshTokenOp cfg₀ aliceTokens.refreshToken wB

/-- A soft-deleted account (tombstone timestamp set) that still owns a
live, unexpired session; the stored digests carry salts 1 and 2,
strictly below the world's salt counter 3. -/
def bobUser : User :=
  ⟨"id-b", "bob", "bob@x.com", bcryptHash 12 0 "bob-password-123456", "bob",
    true, false, some 999⟩

def bobRefreshToken : SignedToken :=
  jwtSign ⟨"id-b", none, none, 999, 999 + 604800, "enrichment", "enrichment-users"⟩
    cfg₀.refreshSecret

def bobAccessToken : SignedToken :=
  jwtSign ⟨"id-b", some "bob@x.com", some "bob", 999, 999 + 900, "enrichment",
    "enrichment-users"⟩ cfg₀.secret

def bobSession : SessionRecord :=
  ⟨"id-s", "id-b", bcryptHash 10 1 bobAccessToken,
    some (bcryptHash 10 2 bobRefreshToken),
    none, none, none, 999 + 604800, 999, 999⟩

def wDel : World := ⟨⟨[bobUser], [bobSession]⟩, 1000, 1, 3⟩

def carolData : RegisterData :=
  ⟨"carol", "bob@x.com", "carol-password-123456", none, none⟩

/-- An MFA-enabled, never-deleted account whose password digest
certifies `mallory-password-123`, with its world. -/
def mfaUser : User :=
  ⟨"id-m", "mallory", "mallory@x.com", bcryptHash 12 0 "mallory-password-123",
    "mallory", true, true, none⟩

def wMfa : World := ⟨⟨[mfaUser], []⟩, 2000, 1, 1⟩

/-- Salt-freshness invariant of reachable states: every stored refresh
digest was salted strictly below the world's salt counter, so no later
`hash` call can reproduce it. -/
def refreshHashFresh (n : Nat) (s : SessionRecord) : Bool :=
  match s.refreshTokenHash with
  | none => true
  | some d => decide (d.salt < n)

def refreshSaltsFresh (w : World) : Prop :=
  w.db.userSessions.all (refreshHashFresh w.nextSalt) = true

/-!  Helper lemmas. -/

theorem find?_filter_neg (l : List α) (p : α → Bool) :
    (l.filter (fun x => !(p x))).find? p = none := by
  rw [List.find?_filter, List.find?_eq_none]
  intro x _
  simp

/-- Every row fails `login`'s where-clause: the `deleted_at = NULL`
comparison is satisfied by no row. -/
theorem loginUserPred_false (email : String) (u : User) :
    loginUserPred email u = false := by
  simp [loginUserPred, sqlEqNull]

/-- Shared helper: the login lookup finds no account, whatever the
rows and the email. -/
theorem login_lookup_none (l : List User) (email : String) :
    l.find? (loginUserPred email) = none := by
  rw [List.find?_eq_none]
  intro u _
  simp [loginUserPred_false]

/-- Shared helper: the duplicate-email guard of `register` fires for any
existing row with the requested email, soft-deleted or not, and leaves
the world untouched. -/
theorem register_email_conflict_of_mem (cfg : AuthConfig) (data : RegisterData)
    (w : World) (u : User) (hu : u ∈ w.db.users) (he : u.email = data.email) :
    register cfg data w =
      (.error ⟨"User already exists with this email", 409, none⟩, w) := by
  have hsome : (w.db.users.find? (fun v => v.email == data.email)).isSome = true := by
    rw [List.find?_isSome]
    exact ⟨u, hu, by simp [he]⟩
  simp [register, hsome]

/-- Shared helper: once every stored refresh digest carries a salt
strictly below the world's salt source — true of every reachable
state — `refreshToken` fails with the uniform 401 error for every
presented token: the freshly salted recomputed digest matches no stored
row, and jwt-layer failures are wrapped into the same error. -/
theorem refresh_fails_of_fresh (cfg : AuthConfig) (w : World)
    (token : SignedToken) (hfresh : refreshSaltsFresh w) :
    errOf (refreshTokenOp cfg token w).1 =
      some ⟨"Invalid refresh token", 401, none⟩ := by
  cases hjv : jwtVerify token cfg.refreshSecret w.now with
  | error e =>
    simp [refreshTokenOp, refreshTokenAux, hjv, errOf]
  | ok payload =>
    have hnone : w.db.userSessions.find?
        (refreshSessionPred payload.sub (bcryptHash 10 w.nextSalt token)) = none := by
      rw [List.find?_eq_none]
      intro s hs hps
      simp only [refreshSessionPred, Bool.and_eq_true, beq_iff_eq] at hps
      have hall := List.all_eq_true.mp hfresh s hs
      simp only [refreshHashFresh, hps.2, bcryptHash] at hall
      exact absurd (of_decide_eq_true hall) (Nat.lt_irrefl _)
    simp [refreshTokenOp, refreshTokenAux, hjv, bcryptHashW, hnone, errOf]

/-- C5: `VerifyAccess` on an access token whose embedded expiry has
passed fails (with the uniform 401 `Invalid token` error of the
`JsonWebTokenError` branch) before touching bcrypt or the registry,
regardless of the Session Registry state — the world `w`, and with it
the session table, is arbitrary and is returned unchanged. -/
theorem verify_rejects_embedded_expired_token (cfg : AuthConfig) (w : World)
    (token : SignedToken) (h : token.claims.exp ≤ w.now) :
    verifyToken cfg token w = (.error ⟨"Invalid token", 401, none⟩, w) := by
  by_cases hk : token.key = cfg.secret
  · simp [verifyToken, jwtVerify, hk, h]
  · simp [verifyToken, jwtVerify, hk]

/-- Witness for `verify_rejects_embedded_expired_token`: Bob's access
token expired at 1899, yet his session row (absolute expiry 605799) is
still present in the registry at time 999999. -/
def wLate : World := { wDel with now := 999999 }

theorem verify_rejects_embedded_expired_token_witness :
    bobAccessToken.claims.exp ≤ wLate.now ∧
      verifyToken cfg₀ bobAccessToken wLate =
        (.error ⟨"Invalid token", 401, none⟩, wLate) :=
  ⟨by decide, verify_rejects_embedded_expired_token cfg₀ wLate bobAccessToken (by decide)⟩

/-- C4: after `Logout` deletes every session row matching the token's
subject and the given access-token hash, `VerifyAccess` on that token
fails with the 401 session error, even though the token's embedded
expiry has not yet passed (`w.now < exp`) and its signature is valid;
the returned world differs from the post-logout world only by the salt
that `verifyToken`'s own re-hash consumed. -/
theorem verify_fails_after_logout (cfg : AuthConfig) (w : World)
    (token : SignedToken) (hk : token.key = cfg.secret)
    (hexp : w.now < token.claims.exp) :
    verifyToken cfg token
        (logout token.claims.sub (bcryptHash 10 w.nextSalt token) w).2 =
      (.error ⟨"Token expired or invalid", 401, none⟩,
        (bcryptHashW 10 token
          (logout token.claims.sub (bcryptHash 10 w.nextSalt token) w).2).2) := by
  have h2 : ¬ (token.claims.exp ≤ w.now) := Nat.not_le.mpr hexp
  have hfind :
      (w.db.userSessions.filter (fun s =>
          !(verifySessionPred token.claims.sub (bcryptHash 10 w.nextSalt token) s))).find?
        (verifySessionPred token.claims.sub (bcryptHash 10 w.nextSalt token)) = none :=
    find?_filter_neg _ _
  simp [verifyToken, jwtVerify, logout, bcryptHashW, hk, h2, hfind]

theorem verify_fails_after_logout_witness :
    aliceTokens.accessToken.key = cfg₀.secret ∧
      regStep.2.now < aliceTokens.accessToken.claims.exp ∧
      verifyToken cfg₀ aliceTokens.accessToken
          (logout aliceTokens.accessToken.claims.sub
            (bcryptHash 10 regStep.2.nextSalt aliceTokens.accessToken) regStep.2).2 =
        (.error ⟨"Token expired or invalid", 401, none⟩,
          (bcryptHashW 10 aliceTokens.accessToken
            (logout aliceTokens.accessToken.claims.sub
              (bcryptHash 10 regStep.2.nextSalt aliceTokens.accessToken)
              regStep.2).2).2) :=
  ⟨by decide, by decide,
    verify_fails_after_logout cfg₀ regStep.2 aliceTokens.accessToken
      (by decide) (by decide)⟩

/-- C8: registering with the email of an existing account — even under
a distinct username — fails with the 409 `Conflict` error, and the
returned world is the input world: no Account row and no SessionRecord
is created. -/
theorem register_duplicate_email_conflict (cfg : AuthConfig)
    (data : RegisterData) (w : World) (u : User) (hu : u ∈ w.db.users)
    (he : u.email = data.email) (_hn : u.username ≠ data.username) :
    register cfg data w =
      (.error ⟨"User already exists with this email", 409, none⟩, w) :=
  register_email_conflict_of_mem cfg data w u hu he

theorem register_duplicate_email_conflict_witness :
    bobUser ∈ wDel.db.users ∧ bobUser.email = carolData.email ∧
      bobUser.username ≠ carolData.username ∧
      register cfg₀ carolData wDel =
        (.error ⟨"User already exists with this email", 409, none⟩, wDel) :=
  ⟨by decide, by decide, by decide,
    register_duplicate_email_conflict cfg₀ carolData wDel bobUser
      (by decide) (by decide) (by decide)⟩

/-- C6: `login` returns the identical `Invalid credentials` error value
(message, 401 status, no details) and the identically unchanged world
on every input, so in particular the "no account with this email" run
and the "account exists but the password does not verify" run are
indistinguishable to the caller.  In the source both runs reach the
very same lookup-miss branch: the `deleted_at = NULL` comparison makes
the account lookup match no row, and no bcrypt call is reached, so no
state (not even the salt source) changes. -/
theorem login_uniform_invalid_credentials (cfg : AuthConfig)
    (creds : LoginCredentials) (si : Option SessionInfo) (w : World) :
    login cfg creds si w = (.error ⟨"Invalid credentials", 401, none⟩, w) := by
  have h : w.db.users.find? (loginUserPred creds.email) = none :=
    login_lookup_none w.db.users creds.email
  simp [login, h]

/-- C7 (code bug): Mallory's account is MFA-enabled, present, not
soft-deleted, and her stored digest verifies her password, yet `login`
with the correct password and no MFA code — and likewise with a
non-verifying code — fails with the generic `Invalid credentials`,
never the distinguishable `MFA code required` / `Invalid MFA code`
failures: the account lookup's `deleted_at = NULL` comparison matches
no row, so the MFA branches are unreachable. -/
theorem mfa_login_gets_invalid_credentials :
    wMfa.db.users = [mfaUser] ∧
    mfaUser.mfaEnabled = true ∧
    mfaUser.deletedAt = none ∧
    bcryptCompare "mallory-password-123" mfaUser.passwordHash = true ∧
    login cfg₀ ⟨"mallory@x.com", "mallory-password-123", none⟩ none wMfa =
      (.error ⟨"Invalid credentials", 401, none⟩, wMfa) ∧
    login cfg₀ ⟨"mallory@x.com", "mallory-password-123", some "000000"⟩ none wMfa =
      (.error ⟨"Invalid credentials", 401, none⟩, wMfa) :=
  ⟨rfl, rfl, rfl, rfl, rfl, rfl⟩

/-- C9: `generateTokens` signs the access token with `cfg.secret` and
the refresh token with `cfg.refreshSecret`; when the two configured
secrets differ (and the configured TTLs are positive so the fresh
tokens are unexpired), each token verifies under its own secret and is
rejected as an invalid signature under the other. -/
theorem token_secret_separation (cfg : AuthConfig) (user : User)
    (si : Option SessionInfo) (w : World)
    (hne : cfg.secret ≠ cfg.refreshSecret)
    (ha : 0 < parseTimeToSeconds cfg.accessExpiresIn)
    (hr : 0 < parseTimeToSeconds cfg.refreshExpiresIn) :
    (generateTokens cfg user si w).1.accessToken.key = cfg.secret ∧
    (generateTokens cfg user si w).1.refreshToken.key = cfg.refreshSecret ∧
    jwtVerify (generateTokens cfg user si w).1.accessToken cfg.secret w.now =
      .ok (generateTokens cfg user si w).1.accessToken.claims ∧
    jwtVerify (generateTokens cfg user si w).1.refreshToken cfg.refreshSecret
        w.now = .ok (generateTokens cfg user si w).1.refreshToken.claims ∧
    jwtVerify (generateTokens cfg user si w).1.accessToken cfg.refreshSecret
        w.now = .error .invalidSignature ∧
    jwtVerify (generateTokens cfg user si w).1.refreshToken cfg.secret w.now =
      .error .invalidSignature := by
  have hna : ¬ (w.now + parseTimeToSeconds cfg.accessExpiresIn ≤ w.now) := by
    omega
  have hnr : ¬ (w.now + parseTimeToSeconds cfg.refreshExpiresIn ≤ w.now) := by
    omega
  have hne' : cfg.refreshSecret ≠ cfg.secret := Ne.symm hne
  refine ⟨rfl, rfl, ?_, ?_, ?_, ?_⟩
  · simp [generateTokens, jwtSign, jwtVerify, hna]
  · simp [generateTokens, jwtSign, jwtVerify, hnr]
  · simp [generateTokens, jwtSign, jwtVerify, hne]
  · simp [generateTokens, jwtSign, jwtVerify, hne']

theorem token_secret_separation_witness :
    cfg₀.secret ≠ cfg₀.refreshSecret ∧
    0 < parseTimeToSeconds cfg₀.accessExpiresIn ∧
    0 < parseTimeToSeconds cfg₀.refreshExpiresIn ∧
    jwtVerify (generateTokens cfg₀ mfaUser none wMfa).1.accessToken
        cfg₀.refreshSecret wMfa.now = .error .invalidSignature :=
  ⟨by decide, by decide, by decide,
    (token_secret_separation cfg₀ mfaUser none wMfa (by decide) (by decide)
        (by decide)).2.2.2.2.1⟩

/-- C3 (code bug): immediately after Alice's registration the registry
holds session rows whose stored access-token digests certify exactly
her access token, none past its absolute expiry; the token is
well-signed and far from its embedded expiry — and `verifyToken` still
fails with the 401 session error, because the lookup recomputes a
freshly salted digest that cannot equal any stored one.  The success
path of `VerifyAccess` is unreachable in the program. -/
theorem verify_fails_despite_live_session :
    okB regStep.1 = true ∧
    regStep.2.db.userSessions.map (fun s => s.tokenHash.value) =
      [aliceTokens.accessToken] ∧
    regStep.2.db.userSessions.all
      (fun s => !(s.expiresAt < regStep.2.now)) = true ∧
    aliceTokens.accessToken.key = cfg₀.secret ∧
    regStep.2.now < aliceTokens.accessToken.claims.exp ∧
    errOf (verifyToken cfg₀ aliceTokens.accessToken regStep.2).1 =
      some ⟨"Token expired or invalid", 401, none⟩ :=
  ⟨rfl, rfl, rfl, rfl, by decide, rfl⟩

/-- C1 (code bug): Alice's registration succeeds and creates exactly
one account — hers, with her email, no deletion timestamp, and a
password digest that verifies her password — yet `login` with the very
same email and password fails with `Invalid credentials`: the account
lookup's `deleted_at = NULL` comparison matches no row, so no login
ever succeeds, let alone returns a token pair for the created
account. -/
theorem register_then_login_rejected :
    okB regStep.1 = true ∧
    regStep.2.db.users.map (·.email) = [aliceData.email] ∧
    regStep.2.db.users.map (·.deletedAt) = [none] ∧
    regStep.2.db.users.all
      (fun u => bcryptCompare aliceData.password u.passwordHash) = true ∧
    login cfg₀ ⟨aliceData.email, aliceData.password, none⟩ none regStep.2 =
      (.error ⟨"Invalid credentials", 401, none⟩, regStep.2) :=
  ⟨rfl, rfl, rfl, rfl, rfl⟩

/-- C2 (code bug): Alice's registration stores a session whose refresh
digest certifies exactly her valid, well-signed, unexpired refresh
token, yet the very first `Refresh` with that token — one second
later — already fails with the uniform 401 `Invalid refresh token`:
the session lookup recomputes a freshly salted digest that never
equals the stored one.  The session table is left untouched, a replay
one second after that fails identically and also changes nothing — no
refresh ever succeeds, nothing is ever rotated, and the code contains
no reuse-triggered revocation of a session. -/
theorem refresh_never_succeeds_and_never_revokes :
    okB regStep.1 = true ∧
    regStep.2.db.userSessions.map (fun s => s.refreshTokenHash.map (·.value)) =
      [some aliceTokens.refreshToken] ∧
    aliceTokens.refreshToken.key = cfg₀.refreshSecret ∧
    wA.now < aliceTokens.refreshToken.claims.exp ∧
    errOf refreshStep.1 = some ⟨"Invalid refresh token", 401, none⟩ ∧
    refreshStep.2.db.userSessions = wA.db.userSessions ∧
    errOf reuseStep.1 = some ⟨"Invalid refresh token", 401, none⟩ ∧
    reuseStep.2.db.userSessions = wB.db.userSessions :=
  ⟨rfl, rfl, rfl, by decide, rfl, rfl, rfl, rfl⟩

/-- C10 (counterexample): Bob is soft-deleted (tombstone timestamp
set), Carol registers with his email under a distinct username, and
`register` fails with the 409 duplicate-email conflict: the uniqueness
check counted the soft-deleted account as an existing user,
contradicting the claim that it does not. -/
theorem softdelete_counted_by_register :
    bobUser ∈ wDel.db.users ∧
    bobUser.deletedAt = some 999 ∧
    bobUser.username ≠ carolData.username ∧
    bobUser.email = carolData.email ∧
    errOf (register cfg₀ carolData wDel).1 =
      some ⟨"User already exists with this email", 409, none⟩ :=
  ⟨by decide, rfl, by decide, rfl, rfl⟩

/-- C10 (amended): soft-deleted accounts indeed never surface in
`login` — its lookup matches no account at all, the `deleted_at = NULL`
comparison being unsatisfiable — and `refresh` fails for them as it
does for every token once every stored refresh digest carries a salt
below the world's salt source (true of reachable states); but
`register`'s email-uniqueness check counts soft-deleted accounts as
existing users: any stored row with the requested email, tombstoned or
not, triggers the 409 conflict. -/
theorem softdelete_exclusion_only_in_login (cfg : AuthConfig) (w : World) :
    (∀ email : String, w.db.users.find? (loginUserPred email) = none) ∧
    (∀ (data : RegisterData) (u : User), u ∈ w.db.users → u.email = data.email →
      register cfg data w =
        (.error ⟨"User already exists with this email", 409, none⟩, w)) ∧
    (∀ rt : SignedToken, refreshSaltsFresh w →
      errOf (refreshTokenOp cfg rt w).1 =
        some ⟨"Invalid refresh token", 401, none⟩) := by
  refine ⟨?_, ?_, ?_⟩
  · intro email
    exact login_lookup_none w.db.users email
  · intro data u hu he
    exact register_email_conflict_of_mem cfg data w u hu he
  · intro rt hfresh
    exact refresh_fails_of_fresh cfg w rt hfresh

theorem softdelete_exclusion_only_in_login_witness :
    wDel.db.users.find? (loginUserPred "bob@x.com") = none ∧
    register cfg₀ carolData wDel =
      (.error ⟨"User already exists with this email", 409, none⟩, wDel) ∧
    refreshSaltsFresh wDel ∧
    errOf (refreshTokenOp cfg₀ bobRefreshToken wDel).1 =
      some ⟨"Invalid refresh token", 401, none⟩ :=
  ⟨(softdelete_exclusion_only_in_login cfg₀ wDel).1 "bob@x.com",
   (softdelete_exclusion_only_in_login cfg₀ wDel).2.1 carolData bobUser
      (by decide) (by decide),
   by unfold refreshSaltsFresh; decide,
   (softdelete_exclusion_only_in_login cfg₀ wDel).2.2 bobRefreshToken
      (by unfold refreshSaltsFresh; decide)⟩

end Auth
